import Mathlib

/-!
# telebot: request dispatch and file upload

A shallow embedding of `src/api.go` (`Bot.Raw`, `Bot.sendFiles`, `addFileToWriter`,
`sendText`, `sendMedia`, `getMe`, `getUpdates`) and of the sticker endpoints of
`src/stickers.go`.

Conventions of the embedding.

* A Go `string` and a Go `[]byte` are both a Lean `String` (one `Char` per byte), so the
  conversions `[]byte(s)` and `string(b)` are the identity.
* A Go `error` value is `Option GoError`: `none` is `nil`.  `io.EOF` is the end of a stream, not
  a failure, and is not a `GoError`.
* A Go `map[string]T` is an association list with distinct keys (`GoMap T`); `m[k] = v` is
  `GoMap.set`.  The order in which `range` visits a map is unspecified in Go: it is supplied by
  the environment (`Env.rangeFiles`, `Env.rangeRaw`, `Env.rangeParams`) and the theorems
  quantify over every order (`Env.RangeOK`).
* Everything outside the three source files (the HTTP client, the filesystem, `encoding/json`,
  `io.Pipe`, `mime/multipart`, and the declarations of the package that live in other files) is
  a field of `Env` or, for what only the endpoints use, of `Decoders`.
* A multipart body is the sequence of writes that the `multipart.Writer` performs on the pipe
  (`Frame`): part headers, content chunks and the closing boundary. The byte format of these
  writes belongs to `mime/multipart` and is not modelled.
* Every outward effect is recorded, in program order, in the `trace` of an `Outcome`.
* The goroutine of `sendFiles` that writes the multipart body runs against the pipe as a
  sequential program; the read end of the pipe is described by how many writes it takes before
  it is closed (`Env.accepts`).
-/

namespace Telebot

/-- A Go byte slice. -/
abbrev Bytes := String

/-- A non-nil Go `error` value. -/
inductive GoError where
  /-- An error built by `fmt.Errorf` with this message. -/
  | errorf (msg : String)
  /-- The sentinel `io.ErrClosedPipe`. -/
  | ErrClosedPipe
  /-- Any other error value, identified by a number. -/
  | other (id : Nat)
  deriving DecidableEq, Repr

/-- An `io.Reader`: the chunks that successive `Read` calls deliver, followed by `io.EOF`
(`fail = none`) or by a read error. -/
structure Reader where
  chunks : List Bytes
  fail : Option GoError
  deriving DecidableEq, Repr

/-- The fields of `File` that the dispatch code reads. -/
structure File where
  FileID : String
  FileURL : String
  FileLocal : String
  FileReader : Option Reader
  fileName : String
  deriving DecidableEq, Repr

/-- The zero value of `File`, which `files[field]` yields for a missing key. -/
def File.zero : File := ⟨"", "", "", none, ""⟩

/-- A Go `map[string]T`. -/
abbrev GoMap (α : Type) := List (String × α)

/-- Keys of a map. -/
def GoMap.keys {α : Type} (m : GoMap α) : List String := m.map Prod.fst

/-- Lookup `m[k]` with the comma-ok result. -/
def GoMap.get? {α : Type} : GoMap α → String → Option α
  | [], _ => none
  | (k, v) :: m, key => if k = key then some v else GoMap.get? m key

/-- Assignment `m[key] = v`. -/
def GoMap.set {α : Type} : GoMap α → String → α → GoMap α
  | [], key, v => [(key, v)]
  | (k, w) :: m, key, v => if k = key then (k, v) :: m else (k, w) :: GoMap.set m key v

/-- A value stored in `rawFiles`, a `map[string]interface{}`. -/
inductive RawFile where
  /-- A `string`: the path of a local file. -/
  | path (p : String)
  /-- An `io.Reader`. -/
  | reader (r : Reader)
  /-- A value of any other dynamic type. -/
  | other (tag : Nat)
  deriving DecidableEq, Repr

/-- One write that the multipart writer performs on the underlying pipe. -/
inductive Frame where
  /-- The boundary line and part header written by `CreateFormFile(field, filename)`. -/
  | fileHeader (field filename : String)
  /-- The boundary line and part header written by `CreateFormField(name)`. -/
  | fieldHeader (name : String)
  /-- A `Write` of content on the current part. -/
  | data (chunk : Bytes)
  /-- The closing boundary written by `Writer.Close`. -/
  | closing
  deriving DecidableEq, Repr

/-- How the write end of a pipe was closed (the `werr` of `io.Pipe`). -/
inductive Closed where
  /-- Plain `Close()`: the reader gets `io.EOF` after the data. -/
  | eof
  /-- The writer closed with `CloseWithError(e)`: the reader gets `e` after the data. -/
  | err (e : GoError)
  deriving DecidableEq, Repr

/-- The state of an `io.Pipe`, seen from the writing goroutine. -/
structure Pipe where
  /-- Frames handed over to the reader, oldest first. -/
  buf : List Frame
  /-- The write side's close status; set once. -/
  werr : Option Closed
  /-- The read side's close error; set once. -/
  rerr : Option GoError
  /-- Number of further writes the reader takes before it closes its end; `none`: it never
  closes before the writer does. -/
  accepts : Option Nat
  /-- The error with which the reader closes its end, when it does. -/
  closeErr : GoError
  deriving DecidableEq, Repr

/-- The body of an outbound request. -/
inductive ReqBody where
  /-- An in-memory buffer. -/
  | buffer (b : Bytes)
  /-- The read end of a pipe: the frames the writer delivered and how the write end was
  closed. -/
  | pipe (frames : List Frame) (closed : Option Closed)
  deriving DecidableEq, Repr

/-- An `*http.Response`, as far as the code reads it. -/
structure Response where
  StatusCode : Nat
  Body : Reader
  deriving DecidableEq, Repr

/-- The argument `payload interface{}` of `Raw`. -/
inductive Payload where
  /-- The untyped `nil`. -/
  | null
  /-- A `map[string]string`. -/
  | params (m : GoMap String)
  /-- A value of any other type. -/
  | value (id : Nat)
  deriving DecidableEq, Repr

/-- The fields of `Bot` that the dispatch code reads, the HTTP client apart (see `Env.Post`). -/
structure Bot where
  URL : String
  Token : String
  verbose : Bool
  deriving DecidableEq, Repr

/-- Outward effects. -/
inductive Event where
  /-- The call `b.client.Post(url, contentType, body)`. -/
  | post (url contentType : String) (body : ReqBody)
  /-- The call `ioutil.ReadAll(resp.Body)`. -/
  | readAll
  /-- The call `extractOk(data)`. -/
  | extractOk (data : Bytes)
  /-- The call `log.Printf` of the verbose block, with its three arguments. -/
  | log (method params response : String)
  /-- The call `pipeReader.CloseWithError(err)`. -/
  | closeReader (err : GoError)
  /-- The deferred `resp.Body.Close()`. -/
  | closeBody
  /-- A decoding of response data by a caller (`json.Unmarshal` or `extractMessage`). -/
  | decode (data : Bytes)
  deriving DecidableEq, Repr

/-- What a dispatch call returns, `([]byte, error)`, and the effects it had. -/
structure Outcome where
  data : Option Bytes
  err : Option GoError
  trace : List Event
  deriving DecidableEq, Repr

/-- Everything the three source files use and do not define. -/
structure Env where
  /-- The method `File.InCloud` (declared in another file of the package). -/
  InCloud : File → Bool
  /-- The method `File.OnDisk` (declared in another file of the package). -/
  OnDisk : File → Bool
  /-- The function `extractOk` (declared in another file of the package). -/
  extractOk : Bytes → Option GoError
  /-- The function `wrapError` (declared in another file of the package): it wraps a failure
  into an error. -/
  wrapError : GoError → GoError
  /-- The package-level error `ErrInternal`. -/
  ErrInternal : GoError
  /-- The call `os.Open`. -/
  osOpen : String → Except GoError Reader
  /-- The call `json.Marshal`. -/
  jsonMarshal : Payload → Except GoError Bytes
  /-- The call `json.Indent(&buf, src, "", "\t")` on an empty buffer: what the buffer holds
  afterwards. -/
  jsonIndent : Bytes → String
  /-- The method `Post` of `b.client`. -/
  Post : String → String → ReqBody → Except GoError Response
  /-- Number of pipe writes that `Post` takes from a streamed body before it closes the body;
  `none`: it reads the body to its end. -/
  accepts : Option Nat
  /-- The error that writes on the pipe get once `Post` has closed the body. -/
  closeErr : GoError
  /-- The boundary that `multipart.NewWriter` draws. -/
  boundary : String
  /-- Iteration order of `range files`. -/
  rangeFiles : GoMap File → List (String × File)
  /-- Iteration order of `range rawFiles`. -/
  rangeRaw : GoMap RawFile → List (String × RawFile)
  /-- Iteration order of `range params`. -/
  rangeParams : GoMap String → List (String × String)

/-- Concatenation of the chunks of a stream. -/
def joinChunks : List Bytes → Bytes
  | [] => ""
  | c :: cs => c ++ joinChunks cs

/-- The call `ioutil.ReadAll(r)`: all the bytes up to `io.EOF`, or the read error. -/
def readAll (r : Reader) : Except GoError Bytes :=
  match r.fail with
  | none => .ok (joinChunks r.chunks)
  | some e => .error e

/-- The call `json.NewEncoder(&buf).Encode(payload)`: the marshalled value and a newline. -/
def jsonEncode (env : Env) (payload : Payload) : Except GoError Bytes :=
  match env.jsonMarshal payload with
  | .ok s => .ok (s ++ "\n")
  | .error e => .error e

/-- Worker of `replaceAll`: `skip` counts the characters of a match still to be dropped. -/
def replaceAllAux (old new : List Char) : Nat → List Char → List Char
  | _, [] => []
  | k + 1, _ :: s => replaceAllAux old new k s
  | 0, c :: s =>
    if old.isPrefixOf (c :: s) then new ++ replaceAllAux old new (old.length - 1) s
    else c :: replaceAllAux old new 0 s

/-- The call `bytes.ReplaceAll(s, old, new)` for a non-empty `old`. -/
def replaceAll (s old new : Bytes) : Bytes :=
  ⟨replaceAllAux old.data new.data 0 s.data⟩

/-! ## `Bot.Raw` -/

/-- The request URL, `b.URL + "/bot" + b.Token + "/" + method`. -/
def endpoint (b : Bot) (method : String) : String :=
  b.URL ++ "/bot" ++ b.Token ++ "/" ++ method

/-- The verbose block of `Raw`: the `log.Printf` call it makes. -/
def verboseLog (env : Env) (method : String) (payload : Payload) (data : Bytes) : Event :=
  let body := match env.jsonMarshal payload with
    | .ok s => s
    | .error _ => ""
  let body := replaceAll body "\\\"" "\""
  let body := replaceAll body "\"\x7b" "\x7b"
  let body := replaceAll body "\x7d\"" "\x7d"
  .log method (env.jsonIndent body) (env.jsonIndent data)

/-- The method `Bot.Raw`. -/
def Raw (env : Env) (b : Bot) (method : String) (payload : Payload) : Outcome :=
  let url := endpoint b method
  match jsonEncode env payload with
  | .error err => ⟨none, some err, []⟩
  | .ok buf =>
    let sent := Event.post url "application/json" (.buffer buf)
    match env.Post url "application/json" (.buffer buf) with
    | .error err => ⟨none, some (env.wrapError err), [sent]⟩
    | .ok resp =>
      match readAll resp.Body with
      | .error err => ⟨none, some (env.wrapError err), [sent, .readAll, .closeBody]⟩
      | .ok data =>
        let logged := if b.verbose then [verboseLog env method payload data] else []
        ⟨some data, env.extractOk data,
          [sent, .readAll] ++ logged ++ [.extractOk data, .closeBody]⟩

/-! ## `io.Pipe` -/

/-- The pipe that `io.Pipe()` returns, with the reader that `Post` will be. -/
def Pipe.new (env : Env) : Pipe := ⟨[], none, none, env.accepts, env.closeErr⟩

/-- The method `writeCloseError` of `io.pipe`: the error of a write on a closed pipe. -/
def Pipe.writeCloseError (p : Pipe) : GoError :=
  match p.werr, p.rerr with
  | none, some e => e
  | _, _ => .ErrClosedPipe

/-- The call `pipeWriter.Write`: the frame reaches the reader, unless either end is closed
or the reader closes its end instead of taking it. -/
def Pipe.write (p : Pipe) (f : Frame) : Pipe × Option GoError :=
  if p.werr.isSome || p.rerr.isSome then (p, some p.writeCloseError)
  else
    match p.accepts with
    | some 0 =>
      let q := { p with rerr := some p.closeErr }
      (q, some q.writeCloseError)
    | some (n + 1) => ({ p with buf := p.buf ++ [f], accepts := some n }, none)
    | none => ({ p with buf := p.buf ++ [f] }, none)

/-- The calls `pipeWriter.Close()` (`c = .eof`) and `pipeWriter.CloseWithError(e)`
(`c = .err e`): the first close of the write end is the one that stays. -/
def Pipe.closeWrite (p : Pipe) (c : Closed) : Pipe :=
  match p.werr with
  | some _ => p
  | none => { p with werr := some c }

/-! ## `mime/multipart.Writer` -/

/-- A `multipart.Writer` on a pipe. `lastpart = some we` when a part has been created, `we`
being the error of the last failed write on it. -/
structure Writer where
  w : Pipe
  lastpart : Option (Option GoError)
  deriving DecidableEq, Repr

/-- The call `multipart.NewWriter(pipeWriter)`. -/
def Writer.new (p : Pipe) : Writer := ⟨p, none⟩

/-- The method `CreatePart`, called with the header `hdr`: it finishes the previous part and
writes the boundary line and the header in one write. -/
def Writer.CreatePart (mw : Writer) (hdr : Frame) : Writer × Option GoError :=
  match mw.lastpart with
  | some (some e) => (mw, some e)
  | _ =>
    match mw.w.write hdr with
    | (p, some e) => ({ mw with w := p }, some e)
    | (p, none) => (⟨p, some none⟩, none)

/-- The method `Write` of the current part. -/
def Writer.partWrite (mw : Writer) (d : Bytes) : Writer × Option GoError :=
  match mw.w.write (.data d) with
  | (p, some e) => (⟨p, some (some e)⟩, some e)
  | (p, none) => ({ mw with w := p }, none)

/-- The method `WriteField`. -/
def Writer.WriteField (mw : Writer) (fieldname value : String) : Writer × Option GoError :=
  match mw.CreatePart (.fieldHeader fieldname) with
  | (mw1, some e) => (mw1, some e)
  | (mw1, none) => mw1.partWrite value

/-- The method `Close`: it finishes the last part and writes the closing boundary. -/
def Writer.Close (mw : Writer) : Writer × Option GoError :=
  match mw.lastpart with
  | some (some e) => (mw, some e)
  | _ =>
    match mw.w.write .closing with
    | (p, e) => (⟨p, none⟩, e)

/-- The method `FormDataContentType`. -/
def FormDataContentType (boundary : String) : String :=
  let b := if boundary.data.any (fun c => "()<>@,;:\\\"/[]?= ".data.contains c)
    then "\"" ++ boundary ++ "\"" else boundary
  "multipart/form-data; boundary=" ++ b

/-- The call `io.Copy(part, reader)`: every non-empty chunk read is written to the part; a
failed write or a read error ends the copy. -/
def ioCopy (mw : Writer) : List Bytes → Option GoError → Writer × Option GoError
  | [], fail => (mw, fail)
  | c :: cs, fail =>
    if c = "" then ioCopy mw cs fail
    else
      match mw.partWrite c with
      | (mw1, some e) => (mw1, some e)
      | (mw1, none) => ioCopy mw1 cs fail

/-! ## `addFileToWriter` and `Bot.sendFiles` -/

/-- The type switch that opens `addFileToWriter`: the reader to copy from, or the error
returned. -/
def openRaw (env : Env) (field : String) : RawFile → Except GoError Reader
  | .reader r => .ok r
  | .path path => env.osOpen path
  | .other _ =>
    .error (.errorf ("telebot: file for field " ++ field ++
      " should be io.ReadCloser or string"))

/-- The function `addFileToWriter`. -/
def addFileToWriter (env : Env) (writer : Writer) (filename field : String) (file : RawFile) :
    Writer × Option GoError :=
  match openRaw env field file with
  | .error err => (writer, some err)
  | .ok reader =>
    match writer.CreatePart (.fileHeader field filename) with
    | (w1, some err) => (w1, some err)
    | (w1, none) => ioCopy w1 reader.chunks reader.fail

/-- The two maps that the first loop of `sendFiles` fills. -/
structure Routed where
  params : GoMap String
  rawFiles : GoMap RawFile
  deriving DecidableEq, Repr

/-- The `switch` of the first loop of `sendFiles`, for one entry of `files`. -/
def route (env : Env) (st : Routed) (name : String) (f : File) : Except GoError Routed :=
  if env.InCloud f then .ok { st with params := st.params.set name f.FileID }
  else if f.FileURL ≠ "" then .ok { st with params := st.params.set name f.FileURL }
  else if env.OnDisk f then .ok { st with rawFiles := st.rawFiles.set name (.path f.FileLocal) }
  else
    match f.FileReader with
    | some r => .ok { st with rawFiles := st.rawFiles.set name (.reader r) }
    | none => .error (.errorf ("telebot: file for field " ++ name ++ " doesn't exist"))

/-- The first loop of `sendFiles`, over the entries of `files` in iteration order. -/
def routeAll (env : Env) : List (String × File) → Routed → Except GoError Routed
  | [], st => .ok st
  | (name, f) :: rest, st =>
    match route env st name f with
    | .error e => .error e
    | .ok st1 => routeAll env rest st1

/-- The loop `for field, file := range rawFiles` of the goroutine of `sendFiles`. -/
def writeFiles (env : Env) (files : GoMap File) (writer : Writer) :
    List (String × RawFile) → Writer × Option GoError
  | [] => (writer, none)
  | (field, file) :: rest =>
    match addFileToWriter env writer ((files.get? field).getD File.zero).fileName field file
    with
    | (w1, some err) => (w1, some err)
    | (w1, none) => writeFiles env files w1 rest

/-- The loop `for field, value := range params` of the goroutine of `sendFiles`. -/
def writeParams (writer : Writer) : List (String × String) → Writer × Option GoError
  | [] => (writer, none)
  | (field, value) :: rest =>
    match writer.WriteField field value with
    | (w1, some err) => (w1, some err)
    | (w1, none) => writeParams w1 rest

/-- The write sequence of the goroutine of `sendFiles`, up to its `return`: the writer it
leaves and the error of the step that failed, if one did. -/
def writeBody (env : Env) (files : GoMap File) (rawFiles : GoMap RawFile)
    (params : GoMap String) (writer : Writer) : Writer × Option GoError :=
  match writeFiles env files writer (env.rangeRaw rawFiles) with
  | (w1, some err) => (w1, some err)
  | (w1, none) =>
    match writeParams w1 (env.rangeParams params) with
    | (w2, some err) => (w2, some err)
    | (w2, none) => w2.Close

/-- The goroutine of `sendFiles`: the write sequence, `pipeWriter.CloseWithError(err)` when a
step failed, and then the deferred `pipeWriter.Close()`. The result is the final pipe. -/
def producer (env : Env) (files : GoMap File) (rawFiles : GoMap RawFile)
    (params : GoMap String) (pipeWriter : Pipe) : Pipe :=
  let ran : Pipe :=
    match writeBody env files rawFiles params (Writer.new pipeWriter) with
    | (w1, some err) => w1.w.closeWrite (.err err)
    | (w1, none) => w1.w
  ran.closeWrite .eof

/-- The part of `Bot.sendFiles` that follows the first loop, for the maps `st` the loop has
filled. -/
def dispatch (env : Env) (b : Bot) (method : String) (files : GoMap File) (st : Routed) :
    Outcome :=
  if st.rawFiles.length = 0 then Raw env b method (.params st.params)
  else
    let pipe := producer env files st.rawFiles st.params (Pipe.new env)
    let url := endpoint b method
    let ctype := FormDataContentType env.boundary
    let sent := Event.post url ctype (.pipe pipe.buf pipe.werr)
    match env.Post url ctype (.pipe pipe.buf pipe.werr) with
    | .error err => ⟨none, some (env.wrapError err), [sent, .closeReader (env.wrapError err)]⟩
    | .ok resp =>
      if resp.StatusCode = 500 then ⟨none, some env.ErrInternal, [sent, .closeBody]⟩
      else
        match readAll resp.Body with
        | .error err => ⟨none, some (env.wrapError err), [sent, .readAll, .closeBody]⟩
        | .ok data =>
          ⟨some data, env.extractOk data, [sent, .readAll, .extractOk data, .closeBody]⟩

/-- The method `Bot.sendFiles`. -/
def sendFiles (env : Env) (b : Bot) (method : String) (files : GoMap File)
    (params : GoMap String) : Outcome :=
  match routeAll env (env.rangeFiles files) ⟨params, []⟩ with
  | .error err => ⟨none, some err, []⟩
  | .ok st => dispatch env b method files st

/-! ## The endpoint wrappers of `api.go` and `stickers.go` -/

/-- A `Recipient`: the string its method `Recipient()` returns. -/
structure Recipient where
  recipient : String
  deriving DecidableEq, Repr

/-- A `*SendOptions` that is not nil; its fields are read by `embedSendOptions` only. -/
structure SendOptions where
  id : Nat
  deriving DecidableEq, Repr

/-- A decoded `Message`; its fields are not read here. -/
structure Message where
  id : Nat
  deriving DecidableEq, Repr

/-- A decoded `User`; its fields are not read here. -/
structure User where
  id : Nat
  deriving DecidableEq, Repr

/-- A decoded `Update`; its fields are not read here. -/
structure Update where
  id : Nat
  deriving DecidableEq, Repr

/-- A `Media`: what its methods `MediaType()` and `MediaFile()` return. -/
structure Media where
  MediaType : String
  MediaFile : File
  deriving DecidableEq, Repr

/-- A `MaskPosition`; its fields are read by `json.Marshal` only. -/
structure MaskPosition where
  id : Nat
  deriving DecidableEq, Repr

/-- The fields of `StickerSet` that the endpoints read. -/
structure StickerSet where
  Name : String
  Title : String
  PNG : Option File
  TGS : Option File
  Emojis : String
  ContainsMasks : Bool
  MaskPosition : Option MaskPosition
  deriving DecidableEq, Repr

/-- What the endpoints use and the three source files do not define. -/
structure Decoders where
  /-- The method `Bot.embedSendOptions`: the parameters after it has run. -/
  embedSendOptions : GoMap String → Option SendOptions → GoMap String
  /-- The function `extractMessage`. -/
  extractMessage : Bytes → Option Message × Option GoError
  /-- The call `strings.Title`. -/
  Title : String → String
  /-- The call `json.Unmarshal` into `struct { Result *User }`: the field, or the error. -/
  unmarshalUser : Bytes → Except GoError (Option User)
  /-- The call `json.Unmarshal` into `struct { Result []Update }`. -/
  unmarshalUpdates : Bytes → Except GoError (List Update)
  /-- The call `json.Unmarshal` into `struct { Result File }`. -/
  unmarshalFile : Bytes → Except GoError File
  /-- The call `json.Unmarshal` into `struct { Result *StickerSet }`. -/
  unmarshalStickerSet : Bytes → Except GoError (Option StickerSet)
  /-- The call `json.Marshal` on a `[]string`, as a string. -/
  marshalStrings : List String → String
  /-- The call `json.Marshal` on a `MaskPosition`, as a string. -/
  marshalMask : MaskPosition → String

/-- What an endpoint with a result returns, `(result, error)`, and the effects it had. -/
structure Reply (α : Type) where
  result : Option α
  err : Option GoError
  trace : List Event

/-- What an endpoint without a result returns, `error`, and the effects it had. -/
structure Done where
  err : Option GoError
  trace : List Event
  deriving DecidableEq, Repr

/-- The tail shared by `sendText` and `sendMedia`: `return nil, err` on an error, else
`return extractMessage(data)`. -/
def messageReply (d : Decoders) (o : Outcome) : Reply Message :=
  match o.err with
  | some err => ⟨none, some err, o.trace⟩
  | none =>
    let data := o.data.getD ""
    ⟨(d.extractMessage data).1, (d.extractMessage data).2, o.trace ++ [.decode data]⟩

/-- The tail shared by `getMe`, `getUpdates`, `UploadSticker` and `StickerSet`:
`return nil, err` on an error, else `json.Unmarshal`, whose error is wrapped. -/
def jsonReply {α : Type} (env : Env) (unmarshal : Bytes → Except GoError α) (o : Outcome) :
    Reply α :=
  match o.err with
  | some err => ⟨none, some err, o.trace⟩
  | none =>
    let data := o.data.getD ""
    match unmarshal data with
    | .error err => ⟨none, some (env.wrapError err), o.trace ++ [.decode data]⟩
    | .ok r => ⟨some r, none, o.trace ++ [.decode data]⟩

/-- The method `Bot.sendText`. -/
def sendText (env : Env) (d : Decoders) (b : Bot) (to_ : Recipient) (text : String)
    (opt : Option SendOptions) : Reply Message :=
  let params : GoMap String := [("chat_id", to_.recipient), ("text", text)]
  let params := d.embedSendOptions params opt
  messageReply d (Raw env b "sendMessage" (.params params))

/-- The loop `for k, v := range files { sendFiles[k] = v }` of `sendMedia`. -/
def mergeFiles (acc : GoMap File) : List (String × File) → GoMap File
  | [] => acc
  | (k, v) :: rest => mergeFiles (acc.set k v) rest

/-- The file set that `sendMedia` builds: the media file under its kind, and `files`. -/
def sendMediaFiles (env : Env) (media : Media) (files : GoMap File) : GoMap File :=
  let kind := media.MediaType
  let kind := if kind = "videoNote" then "video_note" else kind
  mergeFiles [(kind, media.MediaFile)] (env.rangeFiles files)

/-- The method `Bot.sendMedia`. -/
def sendMedia (env : Env) (d : Decoders) (b : Bot) (media : Media) (params : GoMap String)
    (files : GoMap File) : Reply Message :=
  let kind := media.MediaType
  let what := "send" ++ d.Title kind
  messageReply d (sendFiles env b what (sendMediaFiles env media files) params)

/-- The method `Bot.getMe`. -/
def getMe (env : Env) (d : Decoders) (b : Bot) : Reply (Option User) :=
  jsonReply env d.unmarshalUser (Raw env b "getMe" .null)

/-- The constant `time.Second`, in nanoseconds. -/
def Second : Int := 1000000000

/-- The call `strconv.Itoa`. -/
def Itoa (n : Int) : String := toString n

/-- The parameters that `getUpdates` builds; `timeout` is a `time.Duration`, in
nanoseconds. -/
def getUpdatesParams (d : Decoders) (offset limit : Int) (timeout : Int)
    (allowed : List String) : GoMap String :=
  let params : GoMap String :=
    [("offset", Itoa offset), ("timeout", Itoa (Int.tdiv timeout Second))]
  let params := if limit ≠ 0 then params.set "limit" (Itoa limit) else params
  if allowed.length > 0 then params.set "allowed_updates" (d.marshalStrings allowed)
  else params

/-- The method `Bot.getUpdates`. -/
def getUpdates (env : Env) (d : Decoders) (b : Bot) (offset limit : Int) (timeout : Int)
    (allowed : List String) : Reply (List Update) :=
  jsonReply env d.unmarshalUpdates
    (Raw env b "getUpdates" (.params (getUpdatesParams d offset limit timeout allowed)))

/-- The method `Bot.UploadSticker`. -/
def UploadSticker (env : Env) (d : Decoders) (b : Bot) (to_ : Recipient) (png : File) :
    Reply File :=
  let files : GoMap File := [("png_sticker", png)]
  let params : GoMap String := [("user_id", to_.recipient)]
  jsonReply env d.unmarshalFile (sendFiles env b "uploadStickerFile" files params)

/-- The method `Bot.StickerSet`. -/
def getStickerSet (env : Env) (d : Decoders) (b : Bot) (name : String) :
    Reply (Option StickerSet) :=
  jsonReply env d.unmarshalStickerSet (Raw env b "getStickerSet" (.params [("name", name)]))

/-- The tail of the endpoints that end in `_, err := ...; return err`. -/
def errOnly (o : Outcome) : Done := ⟨o.err, o.trace⟩

/-- The call `strconv.FormatBool`. -/
def FormatBool (v : Bool) : String := if v then "true" else "false"

/-- The statement `if s.MaskPosition != nil { ... params["mask_position"] = string(data) }`. -/
def withMask (d : Decoders) (s : StickerSet) (params : GoMap String) : GoMap String :=
  match s.MaskPosition with
  | some m => params.set "mask_position" (d.marshalMask m)
  | none => params

/-- The file set that `CreateStickerSet` builds. -/
def createStickerSetFiles (s : StickerSet) : GoMap File :=
  let files : GoMap File := []
  let files := match s.PNG with
    | some f => files.set "png_sticker" f
    | none => files
  match s.TGS with
  | some f => files.set "tgs_sticker" f
  | none => files

/-- The parameters that `CreateStickerSet` builds. -/
def createStickerSetParams (d : Decoders) (to_ : Recipient) (s : StickerSet) : GoMap String :=
  withMask d s
    [("user_id", to_.recipient), ("name", s.Name), ("title", s.Title), ("emojis", s.Emojis),
      ("contains_masks", FormatBool s.ContainsMasks)]

/-- The method `Bot.CreateStickerSet`. -/
def CreateStickerSet (env : Env) (d : Decoders) (b : Bot) (to_ : Recipient) (s : StickerSet) :
    Done :=
  errOnly (sendFiles env b "createNewStickerSet" (createStickerSetFiles s)
    (createStickerSetParams d to_ s))

/-- The file set that `AddSticker` builds. -/
def addStickerFiles (s : StickerSet) : GoMap File :=
  let files : GoMap File := []
  match s.PNG, s.TGS with
  | some f, _ => files.set "png_sticker" f
  | none, some f => files.set "tgs_sticker" f
  | none, none => files

/-- The parameters that `AddSticker` builds. -/
def addStickerParams (d : Decoders) (to_ : Recipient) (s : StickerSet) : GoMap String :=
  withMask d s [("user_id", to_.recipient), ("name", s.Name), ("emojis", s.Emojis)]

/-- The method `Bot.AddSticker`. -/
def AddSticker (env : Env) (d : Decoders) (b : Bot) (to_ : Recipient) (s : StickerSet) :
    Done :=
  errOnly (sendFiles env b "addStickerToSet" (addStickerFiles s) (addStickerParams d to_ s))

/-- The method `Bot.SetStickerPosition`. -/
def SetStickerPosition (env : Env) (b : Bot) (sticker : String) (position : Int) : Done :=
  let params : GoMap String := [("sticker", sticker), ("position", Itoa position)]
  errOnly (Raw env b "setStickerPositionInSet" (.params params))

/-- The method `Bot.DeleteSticker`. -/
def DeleteSticker (env : Env) (b : Bot) (sticker : String) : Done :=
  errOnly (Raw env b "deleteStickerFromSet" (.params [("sticker", sticker)]))

/-- The file set that `SetStickerSetThumb` builds. -/
def setStickerSetThumbFiles (s : StickerSet) : GoMap File :=
  let files : GoMap File := []
  match s.PNG, s.TGS with
  | some f, _ => files.set "thumb" f
  | none, some f => files.set "thumb" f
  | none, none => files

/-- The method `Bot.SetStickerSetThumb`. -/
def SetStickerSetThumb (env : Env) (b : Bot) (to_ : Recipient) (s : StickerSet) : Done :=
  errOnly (sendFiles env b "setStickerSetThumb" (setStickerSetThumbFiles s)
    [("name", s.Name), ("user_id", to_.recipient)])

/-! ## Definitions used to state the properties -/

/-- A `File` has at least one of its four variants populated. -/
def Populated (env : Env) (f : File) : Bool :=
  env.InCloud f || f.FileURL != "" || env.OnDisk f || f.FileReader.isSome

/-- A `File` resolves to a plain string: it is a Remote Identifier or a Remote URL. -/
def Plain (env : Env) (f : File) : Bool :=
  env.InCloud f || f.FileURL != ""

/-- The string a plain `File` resolves to: its `FileID` if it is in the cloud, else its
`FileURL`. -/
def plainValue (env : Env) (f : File) : String :=
  if env.InCloud f then f.FileID else f.FileURL

/-- The parameter mapping `params` with each listed file's field name mapped to the string the
file resolves to. -/
def mergePlain (env : Env) : List (String × File) → GoMap String → GoMap String
  | [], params => params
  | (name, f) :: rest, params => mergePlain env rest (params.set name (plainValue env f))

/-- The configuration error of `sendFiles` for the field `name`. -/
def missingFile (name : String) : GoError :=
  .errorf ("telebot: file for field " ++ name ++ " doesn't exist")

/-- The body that `sendFiles` hands to `Post` on the multipart path, for the routed maps
`st`. -/
def multipartBody (env : Env) (files : GoMap File) (st : Routed) : ReqBody :=
  .pipe (producer env files st.rawFiles st.params (Pipe.new env)).buf
    (producer env files st.rawFiles st.params (Pipe.new env)).werr

/-- The `post` events of a trace. -/
def posts (trace : List Event) : List Event :=
  trace.filter fun ev =>
    match ev with
    | .post _ _ _ => true
    | _ => false

/-- The maps that the first loop of `sendFiles` ends with; the initial ones when the loop
returns early. -/
def routed (env : Env) (files : GoMap File) (params : GoMap String) : Routed :=
  match routeAll env (env.rangeFiles files) ⟨params, []⟩ with
  | .ok st => st
  | .error _ => ⟨params, []⟩

/-- An environment in which a file is in the cloud when it has a `FileID`; the disk holds
`/tmp/cat.png` and `/tmp/locked.png`, which cannot be opened; the server answers the method
`down` with a transport failure, `busy` with status 500 and an `ok` envelope, `bad` with an
error envelope, `cut` with a body that breaks off, and every other method with status 200 and
an `ok` envelope; every `range` visits a map in the order of its list. -/
def demoEnv : Env where
  InCloud f := f.FileID != ""
  OnDisk f := f.FileLocal == "/tmp/cat.png" || f.FileLocal == "/tmp/locked.png"
  extractOk data := if data = "\x7b\"ok\":true\x7d" then none else some (.other 400)
  wrapError e := .errorf ("telebot: " ++ match e with
    | .errorf m => m
    | .ErrClosedPipe => "io: read/write on closed pipe"
    | .other _ => "failure")
  ErrInternal := .other 500
  osOpen path :=
    if path = "/tmp/cat.png" then .ok ⟨["PNG", "", "DATA"], none⟩ else .error (.other 13)
  jsonMarshal _ := .ok "\x7b\x7d"
  jsonIndent src := src
  Post url _ _ :=
    if url = "https://api.telegram.org/bot123:ABC/down" then .error (.other 7)
    else if url = "https://api.telegram.org/bot123:ABC/busy" then
      .ok ⟨500, ⟨["\x7b\"ok\":true\x7d"], none⟩⟩
    else if url = "https://api.telegram.org/bot123:ABC/bad" then
      .ok ⟨200, ⟨["\x7b\"ok\":false\x7d"], none⟩⟩
    else if url = "https://api.telegram.org/bot123:ABC/cut" then
      .ok ⟨200, ⟨["\x7b\"ok\""], some (.other 9)⟩⟩
    else .ok ⟨200, ⟨["\x7b\"ok\":", "true\x7d"], none⟩⟩
  accepts := none
  closeErr := .ErrClosedPipe
  boundary := "b0"
  rangeFiles m := m
  rangeRaw m := m
  rangeParams m := m

/-- The environment `demoEnv` with a client whose every `Post` fails. -/
def downEnv : Env := { demoEnv with Post := fun _ _ _ => .error (.other 7) }

/-- Decoders for the instances. -/
def demoDecoders : Decoders where
  embedSendOptions params _ := params
  extractMessage _ := (some ⟨1⟩, none)
  Title kind := kind
  unmarshalUser _ := .ok (some ⟨1⟩)
  unmarshalUpdates _ := .ok []
  unmarshalFile _ := .ok File.zero
  unmarshalStickerSet _ := .ok none
  marshalStrings _ := "[]"
  marshalMask _ := "\x7b\x7d"

/-- A sticker set with a PNG sticker that is a Remote Identifier. -/
def demoStickers : StickerSet :=
  ⟨"cats", "Cats", some ⟨"AgAD", "", "", none, ""⟩, none, ":)", false, some ⟨1⟩⟩

/-- A photo that is a Remote Identifier. -/
def demoMedia : Media := ⟨"photo", ⟨"AgAD", "", "", none, ""⟩⟩

/-- A bot for the instances. -/
def demoBot : Bot := ⟨"https://api.telegram.org", "123:ABC", false⟩

/-- A file set with a Remote Identifier that also carries a URL, and a Raw Content entry. -/
def demoFiles : GoMap File :=
  [("photo", ⟨"AgAD", "http://example.org/cat.png", "", none, ""⟩),
   ("thumb", ⟨"", "", "", some ⟨["abc", "def"], none⟩, "t.jpg"⟩)]

/-- A file set whose second entry has no variant populated. -/
def demoFilesMissing : GoMap File :=
  [("photo", ⟨"AgAD", "", "", none, ""⟩), ("thumb", ⟨"", "", "/tmp/none.png", none, ""⟩)]

/-- A file set of a Remote Identifier and a Remote URL. -/
def demoFilesPlain : GoMap File :=
  [("photo", ⟨"AgAD", "", "", none, ""⟩),
   ("thumb", ⟨"", "http://example.org/t.jpg", "", none, ""⟩)]

/-- A parameter mapping for the instances. -/
def demoParams : GoMap String := [("chat_id", "42")]

/-! ## Maps -/

theorem GoMap.get?_set_self {α : Type} (m : GoMap α) (k : String) (v : α) :
    (m.set k v).get? k = some v := by
  induction m with
  | nil => simp [GoMap.set, GoMap.get?]
  | cons p m ih =>
    obtain ⟨k1, w⟩ := p
    by_cases h : k1 = k
    · simp [GoMap.set, GoMap.get?, h]
    · simp [GoMap.set, GoMap.get?, h, ih]

theorem GoMap.get?_set_ne {α : Type} (m : GoMap α) (k k1 : String) (v : α) (h : k ≠ k1) :
    (m.set k v).get? k1 = m.get? k1 := by
  induction m with
  | nil => simp [GoMap.set, GoMap.get?, h]
  | cons p m ih =>
    obtain ⟨k2, w⟩ := p
    by_cases h2 : k2 = k
    · subst h2
      simp [GoMap.set, GoMap.get?, h]
    · by_cases h3 : k2 = k1
      · subst h3
        simp [GoMap.set, GoMap.get?, h2]
      · simp [GoMap.set, GoMap.get?, h2, h3, ih]

theorem GoMap.set_ne_nil {α : Type} (m : GoMap α) (k : String) (v : α) : m.set k v ≠ [] := by
  cases m with
  | nil => simp [GoMap.set]
  | cons p m =>
    obtain ⟨k1, w⟩ := p
    by_cases h : k1 = k <;> simp [GoMap.set, h]

theorem GoMap.get?_of_mem {α : Type} (m : GoMap α) (k : String) (v : α)
    (hk : m.keys.Nodup) (h : (k, v) ∈ m) : m.get? k = some v := by
  induction m with
  | nil => simp at h
  | cons p m ih =>
    obtain ⟨k1, w⟩ := p
    simp only [GoMap.keys, List.map_cons, List.nodup_cons, List.mem_map, not_exists,
      not_and] at hk
    rcases List.mem_cons.1 h with h1 | h1
    · cases h1
      simp [GoMap.get?]
    · have hne : k1 ≠ k := fun e => hk.1 (k, v) h1 e.symm
      simp only [GoMap.get?, hne, if_false]
      exact ih hk.2 h1

theorem GoMap.get?_eq_none {α : Type} (m : GoMap α) (k : String) (h : k ∉ m.keys) :
    m.get? k = none := by
  induction m with
  | nil => rfl
  | cons p m ih =>
    obtain ⟨k1, w⟩ := p
    simp only [GoMap.keys, List.map_cons, List.mem_cons, not_or] at h
    have hne : k1 ≠ k := fun e => h.1 e.symm
    simp only [GoMap.get?, hne, if_false]
    exact ih h.2

/-! ## The first loop of `sendFiles` -/

theorem route_error_of_not_populated (env : Env) (st : Routed) (name : String) (f : File)
    (h : Populated env f = false) : route env st name f = .error (missingFile name) := by
  simp only [Populated, Bool.or_eq_false_iff, bne_eq_false_iff_eq] at h
  obtain ⟨⟨⟨h1, h2⟩, h3⟩, h4⟩ := h
  cases h5 : f.FileReader with
  | some r => simp [h5] at h4
  | none => simp [route, h1, h2, h3, h5, missingFile]

theorem route_ok_of_populated (env : Env) (st : Routed) (name : String) (f : File)
    (h : Populated env f = true) : ∃ st1, route env st name f = .ok st1 := by
  unfold route
  split
  · exact ⟨_, rfl⟩
  · split
    · exact ⟨_, rfl⟩
    · split
      · exact ⟨_, rfl⟩
      · split
        · exact ⟨_, rfl⟩
        · rename_i h1 h2 h3 h4
          simp_all [Populated]

/-- What one pass of the `switch` does to the two maps at the field name it handles. -/
theorem route_spec (env : Env) (st st1 : Routed) (name : String) (f : File)
    (h : route env st name f = .ok st1) :
    (env.InCloud f = true →
      st1.params.get? name = some f.FileID ∧ st1.rawFiles.get? name = st.rawFiles.get? name) ∧
    (env.InCloud f = false → f.FileURL ≠ "" →
      st1.params.get? name = some f.FileURL ∧ st1.rawFiles.get? name = st.rawFiles.get? name) ∧
    (env.InCloud f = false → f.FileURL = "" → env.OnDisk f = true →
      st1.rawFiles.get? name = some (.path f.FileLocal) ∧
        st1.params.get? name = st.params.get? name) ∧
    (env.InCloud f = false → f.FileURL = "" → env.OnDisk f = false →
      ∀ r, f.FileReader = some r →
        st1.rawFiles.get? name = some (.reader r) ∧
          st1.params.get? name = st.params.get? name) := by
  unfold route at h
  refine ⟨fun h1 => ?_, fun h1 h2 => ?_, fun h1 h2 h3 => ?_, fun h1 h2 h3 r h4 => ?_⟩
  · simp only [h1, if_true, Except.ok.injEq] at h
    subst h
    exact ⟨GoMap.get?_set_self _ _ _, rfl⟩
  · simp only [h1, h2, ne_eq, not_false_eq_true, if_true, Bool.false_eq_true, if_false,
      Except.ok.injEq] at h
    subst h
    exact ⟨GoMap.get?_set_self _ _ _, rfl⟩
  · simp only [h1, h2, h3, ne_eq, not_true_eq_false, if_true, Bool.false_eq_true, if_false,
      Except.ok.injEq] at h
    subst h
    exact ⟨GoMap.get?_set_self _ _ _, rfl⟩
  · simp only [h1, h2, h3, h4, ne_eq, not_true_eq_false, Bool.false_eq_true, if_false,
      Except.ok.injEq] at h
    subst h
    exact ⟨GoMap.get?_set_self _ _ _, rfl⟩

/-- One pass of the `switch` leaves every other key of the two maps alone. -/
theorem route_frame (env : Env) (st st1 : Routed) (name k : String) (f : File)
    (h : route env st name f = .ok st1) (hne : name ≠ k) :
    st1.params.get? k = st.params.get? k ∧ st1.rawFiles.get? k = st.rawFiles.get? k := by
  unfold route at h
  split at h
  · cases h
    exact ⟨GoMap.get?_set_ne _ _ _ _ hne, rfl⟩
  · split at h
    · cases h
      exact ⟨GoMap.get?_set_ne _ _ _ _ hne, rfl⟩
    · split at h
      · cases h
        exact ⟨rfl, GoMap.get?_set_ne _ _ _ _ hne⟩
      · split at h
        · cases h
          exact ⟨rfl, GoMap.get?_set_ne _ _ _ _ hne⟩
        · cases h

theorem routeAll_frame (env : Env) (l : List (String × File)) (st0 st : Routed) (k : String)
    (h : routeAll env l st0 = .ok st) (hk : k ∉ GoMap.keys l) :
    st.params.get? k = st0.params.get? k ∧ st.rawFiles.get? k = st0.rawFiles.get? k := by
  induction l generalizing st0 with
  | nil =>
    simp only [routeAll, Except.ok.injEq] at h
    subst h
    exact ⟨rfl, rfl⟩
  | cons p l ih =>
    obtain ⟨name, f⟩ := p
    simp only [GoMap.keys, List.map_cons, List.mem_cons, not_or] at hk
    simp only [routeAll] at h
    cases hr : route env st0 name f with
    | error e => simp [hr] at h
    | ok st1 =>
      simp only [hr] at h
      have h1 := ih st1 h hk.2
      have h2 := route_frame env st0 st1 name k f hr (fun e => hk.1 e.symm)
      exact ⟨h1.1.trans h2.1, h1.2.trans h2.2⟩

/-- Every entry of a map with distinct keys is handled by one pass of the `switch`, on maps
that agree at its field name with the initial ones before and with the final ones after. -/
theorem routeAll_mem (env : Env) (l : List (String × File)) (st0 st : Routed)
    (name : String) (f : File) (h : routeAll env l st0 = .ok st)
    (hk : (GoMap.keys l).Nodup) (hm : (name, f) ∈ l) :
    ∃ st1 st2, route env st1 name f = .ok st2 ∧
      st1.params.get? name = st0.params.get? name ∧
      st1.rawFiles.get? name = st0.rawFiles.get? name ∧
      st.params.get? name = st2.params.get? name ∧
      st.rawFiles.get? name = st2.rawFiles.get? name := by
  induction l generalizing st0 with
  | nil => simp at hm
  | cons p l ih =>
    obtain ⟨n1, f1⟩ := p
    simp only [GoMap.keys, List.map_cons, List.nodup_cons] at hk
    simp only [routeAll] at h
    cases hr : route env st0 n1 f1 with
    | error e => simp [hr] at h
    | ok st1 =>
      simp only [hr] at h
      rcases List.mem_cons.1 hm with h1 | h1
      · cases h1
        have hf := routeAll_frame env l st1 st name h hk.1
        exact ⟨st0, st1, hr, rfl, rfl, hf.1, hf.2⟩
      · obtain ⟨s1, s2, hs, ha, hb, hc, hd⟩ := ih st1 h hk.2 h1
        have hne : n1 ≠ name := by
          intro e
          apply hk.1
          rw [e]
          exact List.mem_map.2 ⟨(name, f), h1, rfl⟩
        have hf := route_frame env st0 st1 n1 name f1 hr hne
        exact ⟨s1, s2, hs, ha.trans hf.1, hb.trans hf.2, hc, hd⟩

theorem routeAll_ok_of_populated (env : Env) (l : List (String × File)) (st0 : Routed)
    (h : ∀ p ∈ l, Populated env p.2 = true) : ∃ st, routeAll env l st0 = .ok st := by
  induction l generalizing st0 with
  | nil => exact ⟨st0, rfl⟩
  | cons p l ih =>
    obtain ⟨name, f⟩ := p
    obtain ⟨st1, h1⟩ := route_ok_of_populated env st0 name f (h (name, f) (by simp))
    obtain ⟨st, h2⟩ := ih st1 (fun q hq => h q (List.mem_cons_of_mem _ hq))
    exact ⟨st, by simp [routeAll, h1, h2]⟩

theorem routeAll_error_of_not_populated (env : Env) (l : List (String × File)) (st0 : Routed)
    (h : ∃ p ∈ l, Populated env p.2 = false) :
    ∃ p ∈ l, Populated env p.2 = false ∧ routeAll env l st0 = .error (missingFile p.1) := by
  induction l generalizing st0 with
  | nil => simp at h
  | cons p l ih =>
    obtain ⟨name, f⟩ := p
    cases hp : Populated env f with
    | false =>
      refine ⟨(name, f), by simp, hp, ?_⟩
      simp [routeAll, route_error_of_not_populated env st0 name f hp]
    | true =>
      obtain ⟨st1, h1⟩ := route_ok_of_populated env st0 name f hp
      have h2 : ∃ q ∈ l, Populated env q.2 = false := by
        obtain ⟨q, hq, hq2⟩ := h
        rcases List.mem_cons.1 hq with e | e
        · subst e
          simp [hp] at hq2
        · exact ⟨q, e, hq2⟩
      obtain ⟨q, hq, hq2, hq3⟩ := ih st1 h2
      exact ⟨q, List.mem_cons_of_mem _ hq, hq2, by simp [routeAll, h1, hq3]⟩

theorem GoMap.mem_of_get? {α : Type} (m : GoMap α) (k : String) (v : α)
    (h : m.get? k = some v) : (k, v) ∈ m := by
  induction m with
  | nil => simp [GoMap.get?] at h
  | cons p m ih =>
    obtain ⟨k1, w⟩ := p
    by_cases h1 : k1 = k
    · simp only [GoMap.get?, h1, if_true, Option.some.injEq] at h
      simp [h1, h]
    · simp only [GoMap.get?, h1, if_false] at h
      exact List.mem_cons_of_mem _ (ih h)

theorem GoMap.not_mem_keys_of_get? {α : Type} (m : GoMap α) (k : String)
    (h : m.get? k = none) : k ∉ m.keys := by
  induction m with
  | nil => simp [GoMap.keys]
  | cons p m ih =>
    obtain ⟨k1, w⟩ := p
    by_cases h1 : k1 = k
    · simp [GoMap.get?, h1] at h
    · simp only [GoMap.get?, h1, if_false] at h
      simp only [GoMap.keys, List.map_cons, List.mem_cons, not_or]
      exact ⟨fun e => h1 e.symm, ih h⟩

/-- Lookup does not depend on the order of the entries of a map. -/
theorem GoMap.get?_perm {α : Type} (m1 m2 : GoMap α) (k : String) (hp : m1.Perm m2)
    (hk : m2.keys.Nodup) : m1.get? k = m2.get? k := by
  cases h : m1.get? k with
  | some v =>
    exact (GoMap.get?_of_mem m2 k v hk ((hp.mem_iff).1 (GoMap.mem_of_get? m1 k v h))).symm
  | none =>
    have h1 := GoMap.not_mem_keys_of_get? m1 k h
    have h2 : k ∉ m2.keys := fun hm => h1 (((hp.map Prod.fst).mem_iff).2 hm)
    exact (GoMap.get?_eq_none m2 k h2).symm

theorem GoMap.keys_nodup_perm {α : Type} (m1 m2 : GoMap α) (hp : m1.Perm m2)
    (hk : m2.keys.Nodup) : m1.keys.Nodup :=
  ((hp.map Prod.fst).nodup_iff).2 hk

/-! ## The plain path -/

theorem routeAll_plain (env : Env) (l : List (String × File)) (params : GoMap String)
    (raw : GoMap RawFile) (h : ∀ p ∈ l, Plain env p.2 = true) :
    routeAll env l ⟨params, raw⟩ = .ok ⟨mergePlain env l params, raw⟩ := by
  induction l generalizing params with
  | nil => rfl
  | cons p l ih =>
    obtain ⟨name, f⟩ := p
    have hp := h (name, f) (by simp)
    have hr : route env ⟨params, raw⟩ name f = .ok ⟨params.set name (plainValue env f), raw⟩ := by
      unfold route plainValue
      by_cases h1 : env.InCloud f = true
      · simp [h1]
      · have h2 : f.FileURL ≠ "" := by
          intro e
          simp [Plain, h1, e] at hp
        simp [h1, h2]
    simp only [routeAll, hr, mergePlain]
    exact ih _ (fun q hq => h q (List.mem_cons_of_mem _ hq))

theorem mergePlain_get? (env : Env) (l : List (String × File)) (params : GoMap String)
    (name : String) (hk : (GoMap.keys l).Nodup) :
    (mergePlain env l params).get? name =
      match GoMap.get? l name with
      | some f => some (plainValue env f)
      | none => params.get? name := by
  induction l generalizing params with
  | nil => rfl
  | cons p l ih =>
    obtain ⟨n1, f1⟩ := p
    simp only [GoMap.keys, List.map_cons, List.nodup_cons] at hk
    simp only [mergePlain]
    rw [ih _ hk.2]
    by_cases h1 : n1 = name
    · subst h1
      have h2 : GoMap.get? l n1 = none := GoMap.get?_eq_none l n1 hk.1
      simp [GoMap.get?, h2, GoMap.get?_set_self]
    · simp only [GoMap.get?, h1, if_false]
      cases GoMap.get? l name with
      | some f => rfl
      | none => exact GoMap.get?_set_ne _ _ _ _ h1

/-- Every request that `Raw` sends goes to the endpoint of the method as `application/json`,
with a buffer as body, and `Raw` sends at most one. -/
theorem Raw_posts (env : Env) (b : Bot) (method : String) (payload : Payload) :
    (∀ url ctype body, Event.post url ctype body ∈ (Raw env b method payload).trace →
      url = endpoint b method ∧ ctype = "application/json" ∧ ∃ buf, body = .buffer buf) ∧
    (posts (Raw env b method payload).trace).length ≤ 1 := by
  have key : ∀ (buf : Bytes) (url ctype : String) (body : ReqBody),
      url = endpoint b method → ctype = "application/json" → body = ReqBody.buffer buf →
        url = endpoint b method ∧ ctype = "application/json" ∧ ∃ buf, body = .buffer buf :=
    fun buf _ _ _ hu hc hb => ⟨hu, hc, buf, hb⟩
  cases h1 : jsonEncode env payload with
  | error e => simp [Raw, h1, posts]
  | ok buf =>
    cases h2 : env.Post (endpoint b method) "application/json" (.buffer buf) with
    | error e => simpa [Raw, h1, h2, posts] using key buf
    | ok resp =>
      cases h3 : readAll resp.Body with
      | error e => simpa [Raw, h1, h2, h3, posts] using key buf
      | ok data =>
        cases h4 : b.verbose <;> simpa [Raw, h1, h2, h3, h4, posts, verboseLog] using key buf

/-! ## The claims -/

/-- C1: in the first loop of `sendFiles`, every file of a set of populated files is classified
by the first test that holds, in the order `InCloud()`, non-empty `FileURL`, `OnDisk()`,
non-nil `FileReader`: in the maps the loop ends with, the field name carries `FileID` in
`params`, or else `FileURL` in `params`, or else the `FileLocal` path in `rawFiles`, or else
the reader in `rawFiles`; a file routed to `params` has no raw content item and a file routed
to `rawFiles` leaves `params` as supplied at its name. `sendFiles` continues with exactly
these maps. -/
theorem sendFiles_classification (env : Env) (b : Bot) (method : String) (files : GoMap File)
    (params : GoMap String) (hk : files.keys.Nodup)
    (hr : (env.rangeFiles files).Perm files)
    (hp : ∀ p ∈ files, Populated env p.2 = true) :
    ∃ st, routeAll env (env.rangeFiles files) ⟨params, []⟩ = .ok st ∧
      sendFiles env b method files params = dispatch env b method files st ∧
      ∀ name f, (name, f) ∈ files →
        (env.InCloud f = true →
          st.params.get? name = some f.FileID ∧ st.rawFiles.get? name = none) ∧
        (env.InCloud f = false → f.FileURL ≠ "" →
          st.params.get? name = some f.FileURL ∧ st.rawFiles.get? name = none) ∧
        (env.InCloud f = false → f.FileURL = "" → env.OnDisk f = true →
          st.rawFiles.get? name = some (.path f.FileLocal) ∧
            st.params.get? name = params.get? name) ∧
        (env.InCloud f = false → f.FileURL = "" → env.OnDisk f = false →
          ∀ r, f.FileReader = some r →
            st.rawFiles.get? name = some (.reader r) ∧
              st.params.get? name = params.get? name) := by
  obtain ⟨st, hst⟩ := routeAll_ok_of_populated env (env.rangeFiles files) ⟨params, []⟩
    (fun p hpm => hp p ((hr.mem_iff).1 hpm))
  refine ⟨st, hst, by simp [sendFiles, hst], ?_⟩
  intro name f hm
  obtain ⟨s1, s2, hs, ha, hb, hc, hd⟩ := routeAll_mem env (env.rangeFiles files) _ st name f hst
    (GoMap.keys_nodup_perm _ _ hr hk) ((hr.mem_iff).2 hm)
  obtain ⟨c1, c2, c3, c4⟩ := route_spec env s1 s2 name f hs
  have hnone : s1.rawFiles.get? name = none := by rw [hb]; rfl
  refine ⟨fun h1 => ?_, fun h1 h2 => ?_, fun h1 h2 h3 => ?_, fun h1 h2 h3 r h4 => ?_⟩
  · obtain ⟨x, y⟩ := c1 h1
    exact ⟨hc.trans x, hd.trans (y.trans hnone)⟩
  · obtain ⟨x, y⟩ := c2 h1 h2
    exact ⟨hc.trans x, hd.trans (y.trans hnone)⟩
  · obtain ⟨x, y⟩ := c3 h1 h2 h3
    exact ⟨hd.trans x, hc.trans (y.trans ha)⟩
  · obtain ⟨x, y⟩ := c4 h1 h2 h3 r h4
    exact ⟨hd.trans x, hc.trans (y.trans ha)⟩

/-- Instance of C1: the file `photo` has a `FileID` and a `FileURL`, the file `thumb` only a
reader. -/
theorem sendFiles_classification_witness :
    (demoFiles.keys.Nodup ∧ (demoEnv.rangeFiles demoFiles).Perm demoFiles ∧
      ∀ p ∈ demoFiles, Populated demoEnv p.2 = true) ∧
    ∃ st, routeAll demoEnv (demoEnv.rangeFiles demoFiles) ⟨demoParams, []⟩ = .ok st ∧
      sendFiles demoEnv demoBot "sendPhoto" demoFiles demoParams =
        dispatch demoEnv demoBot "sendPhoto" demoFiles st ∧
      ∀ name f, (name, f) ∈ demoFiles →
        (demoEnv.InCloud f = true →
          st.params.get? name = some f.FileID ∧ st.rawFiles.get? name = none) ∧
        (demoEnv.InCloud f = false → f.FileURL ≠ "" →
          st.params.get? name = some f.FileURL ∧ st.rawFiles.get? name = none) ∧
        (demoEnv.InCloud f = false → f.FileURL = "" → demoEnv.OnDisk f = true →
          st.rawFiles.get? name = some (.path f.FileLocal) ∧
            st.params.get? name = demoParams.get? name) ∧
        (demoEnv.InCloud f = false → f.FileURL = "" → demoEnv.OnDisk f = false →
          ∀ r, f.FileReader = some r →
            st.rawFiles.get? name = some (.reader r) ∧
              st.params.get? name = demoParams.get? name) :=
  ⟨⟨by decide, List.Perm.refl _, by decide⟩,
    sendFiles_classification demoEnv demoBot "sendPhoto" demoFiles demoParams (by decide)
      (List.Perm.refl _) (by decide)⟩

/-- C2: when the file set holds a file with no variant populated, then for every iteration
order of the map `sendFiles` returns nil data and the error
`telebot: file for field <name> doesn't exist`, `<name>` being the field name of a file with
no variant populated, and it has no outward effect: it sends no request. -/
theorem sendFiles_missing_file (env : Env) (b : Bot) (method : String) (files : GoMap File)
    (params : GoMap String) (hr : (env.rangeFiles files).Perm files)
    (hz : ∃ p ∈ files, Populated env p.2 = false) :
    ∃ p ∈ files, Populated env p.2 = false ∧
      sendFiles env b method files params =
        ⟨none, some (.errorf ("telebot: file for field " ++ p.1 ++ " doesn't exist")), []⟩ := by
  have hz1 : ∃ p ∈ env.rangeFiles files, Populated env p.2 = false := by
    obtain ⟨p, hp, hp2⟩ := hz
    exact ⟨p, (hr.mem_iff).2 hp, hp2⟩
  obtain ⟨p, hp, hp2, hp3⟩ :=
    routeAll_error_of_not_populated env (env.rangeFiles files) ⟨params, []⟩ hz1
  exact ⟨p, (hr.mem_iff).1 hp, hp2, by simp [sendFiles, hp3, missingFile]⟩

/-- Instance of C2: the file `thumb` names a path that is not on the disk and nothing else. -/
theorem sendFiles_missing_file_witness :
    ((demoEnv.rangeFiles demoFilesMissing).Perm demoFilesMissing ∧
      ∃ p ∈ demoFilesMissing, Populated demoEnv p.2 = false) ∧
    ∃ p ∈ demoFilesMissing, Populated demoEnv p.2 = false ∧
      sendFiles demoEnv demoBot "sendPhoto" demoFilesMissing demoParams =
        ⟨none, some (.errorf ("telebot: file for field " ++ p.1 ++ " doesn't exist")), []⟩ :=
  ⟨⟨List.Perm.refl _, by decide⟩,
    sendFiles_missing_file demoEnv demoBot "sendPhoto" demoFilesMissing demoParams
      (List.Perm.refl _) (by decide)⟩

/-- C3: when every file of the set resolves to a plain string (Remote Identifier or Remote
URL; the empty set included), `sendFiles(method, files, params)` returns exactly what
`Raw(method, params1)` returns and has exactly its effects, `params1` being `params` with
each file's field name mapped to its `FileID` or `FileURL`; every request it sends is `Raw`'s
POST to the endpoint with content type `application/json` and a JSON buffer as body, and it
sends at most one. -/
theorem sendFiles_plain (env : Env) (b : Bot) (method : String) (files : GoMap File)
    (params : GoMap String) (hk : files.keys.Nodup)
    (hr : (env.rangeFiles files).Perm files)
    (hp : ∀ p ∈ files, Plain env p.2 = true) :
    sendFiles env b method files params =
      Raw env b method (.params (mergePlain env (env.rangeFiles files) params)) ∧
    (∀ name, (mergePlain env (env.rangeFiles files) params).get? name =
      match files.get? name with
      | some f => some (if env.InCloud f then f.FileID else f.FileURL)
      | none => params.get? name) ∧
    (∀ url ctype body,
      Event.post url ctype body ∈ (sendFiles env b method files params).trace →
        url = endpoint b method ∧ ctype = "application/json" ∧ ∃ buf, body = .buffer buf) ∧
    (posts (sendFiles env b method files params).trace).length ≤ 1 := by
  have h1 : sendFiles env b method files params =
      Raw env b method (.params (mergePlain env (env.rangeFiles files) params)) := by
    have h2 := routeAll_plain env (env.rangeFiles files) params []
      (fun p hpm => hp p ((hr.mem_iff).1 hpm))
    simp [sendFiles, h2, dispatch]
  refine ⟨h1, ?_, ?_, ?_⟩
  · intro name
    rw [mergePlain_get? env _ params name (GoMap.keys_nodup_perm _ _ hr hk),
      GoMap.get?_perm _ _ name hr hk]
    rfl
  · rw [h1]
    exact (Raw_posts env b method _).1
  · rw [h1]
    exact (Raw_posts env b method _).2

/-- Instance of C3: a Remote Identifier and a Remote URL. -/
theorem sendFiles_plain_witness :
    (demoFilesPlain.keys.Nodup ∧ (demoEnv.rangeFiles demoFilesPlain).Perm demoFilesPlain ∧
      ∀ p ∈ demoFilesPlain, Plain demoEnv p.2 = true) ∧
    sendFiles demoEnv demoBot "sendPhoto" demoFilesPlain demoParams =
      Raw demoEnv demoBot "sendPhoto"
        (.params [("chat_id", "42"), ("photo", "AgAD"), ("thumb", "http://example.org/t.jpg")]) :=
  ⟨⟨by decide, List.Perm.refl _, by decide⟩,
    (sendFiles_plain demoEnv demoBot "sendPhoto" demoFilesPlain demoParams (by decide)
      (List.Perm.refl _) (by decide)).1⟩

/-! ## The pipe and the multipart writer -/

theorem Pipe.write_err (p q : Pipe) (f : Frame) (e : GoError) (h : p.write f = (q, some e)) :
    q.buf = p.buf := by
  unfold Pipe.write at h
  split at h
  · simp only [Prod.mk.injEq] at h
    rw [← h.1]
  · split at h
    · simp only [Prod.mk.injEq] at h
      rw [← h.1]
    · simp at h
    · simp at h

/-- A file of the set that is not plain leaves a raw content item. -/
theorem routeAll_rawFiles_ne_nil (env : Env) (files : GoMap File) (params : GoMap String)
    (st : Routed) (hk : files.keys.Nodup) (hr : (env.rangeFiles files).Perm files)
    (hst : routeAll env (env.rangeFiles files) ⟨params, []⟩ = .ok st)
    (hraw : ∃ p ∈ files, Plain env p.2 = false) : st.rawFiles.length ≠ 0 := by
  obtain ⟨⟨name, f⟩, hm, hpl⟩ := hraw
  obtain ⟨s1, s2, hs, -, -, -, hd⟩ := routeAll_mem env (env.rangeFiles files) _ st name f hst
    (GoMap.keys_nodup_perm _ _ hr hk) ((hr.mem_iff).2 hm)
  obtain ⟨-, -, c3, c4⟩ := route_spec env s1 s2 name f hs
  simp only [Plain, Bool.or_eq_false_iff, bne_eq_false_iff_eq] at hpl
  obtain ⟨h1, h2⟩ := hpl
  have hsome : ∃ raw, st.rawFiles.get? name = some raw := by
    cases h3 : env.OnDisk f with
    | true => exact ⟨_, hd.trans (c3 h1 h2 h3).1⟩
    | false =>
      cases h4 : f.FileReader with
      | some r => exact ⟨_, hd.trans (c4 h1 h2 h3 r h4).1⟩
      | none =>
        exfalso
        unfold route at hs
        simp [h1, h2, h3, h4] at hs
  obtain ⟨raw, hraw⟩ := hsome
  intro h0
  have : st.rawFiles = [] := List.length_eq_zero.1 h0
  rw [this] at hraw
  simp [GoMap.get?] at hraw

/-! ## The multipart path -/

theorem routed_eq (env : Env) (files : GoMap File) (params : GoMap String) (st : Routed)
    (h : routeAll env (env.rangeFiles files) ⟨params, []⟩ = .ok st) :
    routed env files params = st := by
  simp [routed, h]

/-- On the multipart path `sendFiles` continues with the maps of the first loop, which hold a
raw content item. -/
theorem multipart_dispatch (env : Env) (b : Bot) (method : String)
    (files : GoMap File) (params : GoMap String) (hk : files.keys.Nodup)
    (hr : (env.rangeFiles files).Perm files) (hp : ∀ p ∈ files, Populated env p.2 = true)
    (hraw : ∃ p ∈ files, Plain env p.2 = false) :
    routeAll env (env.rangeFiles files) ⟨params, []⟩ = .ok (routed env files params) ∧
      (routed env files params).rawFiles.length ≠ 0 ∧
      sendFiles env b method files params =
        dispatch env b method files (routed env files params) := by
  obtain ⟨st, hst⟩ := routeAll_ok_of_populated env (env.rangeFiles files) ⟨params, []⟩
    (fun p hpm => hp p ((hr.mem_iff).1 hpm))
  rw [routed_eq env files params st hst]
  exact ⟨hst, routeAll_rawFiles_ne_nil env files params st hk hr hst hraw,
    by simp [sendFiles, hst]⟩

/-- C5: on a multipart call of `sendFiles` (a set of populated files, one of them not plain),
when `Post` returns a response with status 500, `sendFiles` returns nil data and
`ErrInternal`, whatever the response body is; its only effects are the POST and the deferred
close of the response body: it neither reads the body nor runs `extractOk`. -/
theorem sendFiles_internal_error (env : Env) (b : Bot) (method : String) (files : GoMap File)
    (params : GoMap String) (resp : Response) (hk : files.keys.Nodup)
    (hr : (env.rangeFiles files).Perm files) (hp : ∀ p ∈ files, Populated env p.2 = true)
    (hraw : ∃ p ∈ files, Plain env p.2 = false)
    (hpost : env.Post (endpoint b method) (FormDataContentType env.boundary)
      (multipartBody env files (routed env files params)) = .ok resp)
    (h500 : resp.StatusCode = 500) :
    sendFiles env b method files params =
      ⟨none, some env.ErrInternal,
        [.post (endpoint b method) (FormDataContentType env.boundary)
          (multipartBody env files (routed env files params)), .closeBody]⟩ := by
  obtain ⟨-, hne, hd⟩ := multipart_dispatch env b method files params hk hr hp hraw
  rw [hd]
  simp only [multipartBody] at hpost
  simp only [dispatch, hne, if_false, hpost, h500, if_true, multipartBody]

/-- Instance of C5: the server answers the method `busy` with status 500 and the body
`{"ok":true}`. -/
theorem sendFiles_internal_error_witness :
    (demoFiles.keys.Nodup ∧ (demoEnv.rangeFiles demoFiles).Perm demoFiles ∧
      (∀ p ∈ demoFiles, Populated demoEnv p.2 = true) ∧
      (∃ p ∈ demoFiles, Plain demoEnv p.2 = false) ∧
      demoEnv.Post (endpoint demoBot "busy") (FormDataContentType demoEnv.boundary)
        (multipartBody demoEnv demoFiles (routed demoEnv demoFiles demoParams)) =
          .ok ⟨500, ⟨["\x7b\"ok\":true\x7d"], none⟩⟩ ∧
      demoEnv.extractOk "\x7b\"ok\":true\x7d" = none) ∧
    sendFiles demoEnv demoBot "busy" demoFiles demoParams =
      ⟨none, some demoEnv.ErrInternal,
        [.post (endpoint demoBot "busy") (FormDataContentType demoEnv.boundary)
          (multipartBody demoEnv demoFiles (routed demoEnv demoFiles demoParams)),
          .closeBody]⟩ :=
  ⟨⟨by decide, List.Perm.refl _, by decide, by decide, rfl, by decide⟩,
    sendFiles_internal_error demoEnv demoBot "busy" demoFiles demoParams
      ⟨500, ⟨["\x7b\"ok\":true\x7d"], none⟩⟩ (by decide) (List.Perm.refl _) (by decide)
      (by decide) rfl (by decide)⟩

/-- C7: verbose mode does not alter what `Raw` returns. For every environment (HTTP client
included), bot URL and token, method and payload, the data and the error that `Raw` returns
with `verbose = true` are those it returns with `verbose = false`; the effects differ by the
`log.Printf` call only. -/
theorem Raw_verbose (env : Env) (url token method : String) (payload : Payload) :
    (Raw env ⟨url, token, true⟩ method payload).data =
      (Raw env ⟨url, token, false⟩ method payload).data ∧
    (Raw env ⟨url, token, true⟩ method payload).err =
      (Raw env ⟨url, token, false⟩ method payload).err ∧
    (Raw env ⟨url, token, true⟩ method payload).trace.filter
        (fun ev =>
          match ev with
          | .log _ _ _ => false
          | _ => true) =
      (Raw env ⟨url, token, false⟩ method payload).trace := by
  have hu : endpoint ⟨url, token, true⟩ method = endpoint ⟨url, token, false⟩ method := rfl
  cases h1 : jsonEncode env payload with
  | error e => simp [Raw, h1]
  | ok buf =>
    cases h2 : env.Post (endpoint ⟨url, token, false⟩ method) "application/json"
        (.buffer buf) with
    | error e => simp [Raw, h1, hu, h2]
    | ok resp =>
      cases h3 : readAll resp.Body with
      | error e => simp [Raw, h1, hu, h2, h3]
      | ok data => simp [Raw, h1, hu, h2, h3, verboseLog]

/-- C9: when the JSON encoding, the POST and the read of the body succeed, `Raw` returns as
data the complete response body, unchanged, together with the error that `extractOk` gives
for these bytes, whether that error is nil or not. When the JSON encoding, the POST or the
read of the body fails, `Raw` returns nil data and a non-nil error: the encoding error, or
the wrapped error of the POST or of the read. -/
theorem Raw_result (env : Env) (b : Bot) (method : String) (payload : Payload) :
    (∀ buf resp, jsonEncode env payload = .ok buf →
      env.Post (endpoint b method) "application/json" (.buffer buf) = .ok resp →
      resp.Body.fail = none →
        (Raw env b method payload).data = some (joinChunks resp.Body.chunks) ∧
        (Raw env b method payload).err = env.extractOk (joinChunks resp.Body.chunks)) ∧
    (∀ e, jsonEncode env payload = .error e →
      (Raw env b method payload).data = none ∧ (Raw env b method payload).err = some e) ∧
    (∀ buf e, jsonEncode env payload = .ok buf →
      env.Post (endpoint b method) "application/json" (.buffer buf) = .error e →
        (Raw env b method payload).data = none ∧
        (Raw env b method payload).err = some (env.wrapError e)) ∧
    (∀ buf resp e, jsonEncode env payload = .ok buf →
      env.Post (endpoint b method) "application/json" (.buffer buf) = .ok resp →
      resp.Body.fail = some e →
        (Raw env b method payload).data = none ∧
        (Raw env b method payload).err = some (env.wrapError e)) := by
  refine ⟨fun buf resp h1 h2 h3 => ?_, fun e h1 => ?_, fun buf e h1 h2 => ?_,
    fun buf resp e h1 h2 h3 => ?_⟩
  · have h4 : readAll resp.Body = .ok (joinChunks resp.Body.chunks) := by simp [readAll, h3]
    simp [Raw, h1, h2, h4]
  · simp [Raw, h1]
  · simp [Raw, h1, h2]
  · have h4 : readAll resp.Body = .error e := by simp [readAll, h3]
    simp [Raw, h1, h2, h4]

/-- Instance of C9: a response in two chunks; an error envelope, whose bytes are returned
with the error; a failed POST; and a body that breaks off. -/
theorem Raw_result_witness :
    ((Raw demoEnv demoBot "getMe" .null).data = some "\x7b\"ok\":true\x7d" ∧
      (Raw demoEnv demoBot "getMe" .null).err = none) ∧
    ((Raw demoEnv demoBot "bad" .null).data = some "\x7b\"ok\":false\x7d" ∧
      (Raw demoEnv demoBot "bad" .null).err = some (.other 400)) ∧
    ((Raw demoEnv demoBot "down" .null).data = none ∧
      (Raw demoEnv demoBot "down" .null).err = some (.errorf "telebot: failure")) ∧
    ((Raw demoEnv demoBot "cut" .null).data = none ∧
      (Raw demoEnv demoBot "cut" .null).err = some (.errorf "telebot: failure")) :=
  ⟨(Raw_result demoEnv demoBot "getMe" .null).1 "\x7b\x7d\n"
      ⟨200, ⟨["\x7b\"ok\":", "true\x7d"], none⟩⟩ rfl rfl rfl,
    (Raw_result demoEnv demoBot "bad" .null).1 "\x7b\x7d\n"
      ⟨200, ⟨["\x7b\"ok\":false\x7d"], none⟩⟩ rfl rfl rfl,
    (Raw_result demoEnv demoBot "down" .null).2.2.1 "\x7b\x7d\n" (.other 7) rfl rfl,
    (Raw_result demoEnv demoBot "cut" .null).2.2.2 "\x7b\x7d\n"
      ⟨200, ⟨["\x7b\"ok\""], some (.other 9)⟩⟩ (.other 9) rfl rfl rfl⟩

theorem messageReply_err (d : Decoders) (o : Outcome) (e : GoError) (h : o.err = some e) :
    messageReply d o = ⟨none, some e, o.trace⟩ := by
  simp [messageReply, h]

theorem jsonReply_err {α : Type} (env : Env) (unmarshal : Bytes → Except GoError α)
    (o : Outcome) (e : GoError) (h : o.err = some e) :
    jsonReply env unmarshal o = ⟨none, some e, o.trace⟩ := by
  simp [jsonReply, h]

/-- C10: no endpoint swallows a dispatch error. For each of `sendText`, `sendMedia`, `getMe`,
`getUpdates`, `UploadSticker`, `StickerSet`, `CreateStickerSet`, `AddSticker`,
`SetStickerPosition`, `DeleteSticker` and `SetStickerSetThumb` and every input: when the
call of `Raw` or `sendFiles` that the endpoint makes returns the error `e`, the endpoint
returns exactly `e`, with a nil result where it has one, and its effects are those of that
call: it does not decode the data. -/
theorem endpoints_propagate (env : Env) (d : Decoders) (b : Bot) (e : GoError) :
    (∀ to_ text opt,
      (Raw env b "sendMessage" (.params (d.embedSendOptions
        [("chat_id", to_.recipient), ("text", text)] opt))).err = some e →
      sendText env d b to_ text opt = ⟨none, some e,
        (Raw env b "sendMessage" (.params (d.embedSendOptions
          [("chat_id", to_.recipient), ("text", text)] opt))).trace⟩) ∧
    (∀ media params files,
      (sendFiles env b ("send" ++ d.Title media.MediaType)
        (sendMediaFiles env media files) params).err = some e →
      sendMedia env d b media params files = ⟨none, some e,
        (sendFiles env b ("send" ++ d.Title media.MediaType)
          (sendMediaFiles env media files) params).trace⟩) ∧
    ((Raw env b "getMe" .null).err = some e →
      getMe env d b = ⟨none, some e, (Raw env b "getMe" .null).trace⟩) ∧
    (∀ offset limit timeout allowed,
      (Raw env b "getUpdates"
        (.params (getUpdatesParams d offset limit timeout allowed))).err = some e →
      getUpdates env d b offset limit timeout allowed = ⟨none, some e,
        (Raw env b "getUpdates"
          (.params (getUpdatesParams d offset limit timeout allowed))).trace⟩) ∧
    (∀ to_ png,
      (sendFiles env b "uploadStickerFile" [("png_sticker", png)]
        [("user_id", to_.recipient)]).err = some e →
      UploadSticker env d b to_ png = ⟨none, some e,
        (sendFiles env b "uploadStickerFile" [("png_sticker", png)]
          [("user_id", to_.recipient)]).trace⟩) ∧
    (∀ name, (Raw env b "getStickerSet" (.params [("name", name)])).err = some e →
      getStickerSet env d b name =
        ⟨none, some e, (Raw env b "getStickerSet" (.params [("name", name)])).trace⟩) ∧
    (∀ to_ s,
      (sendFiles env b "createNewStickerSet" (createStickerSetFiles s)
        (createStickerSetParams d to_ s)).err = some e →
      CreateStickerSet env d b to_ s = ⟨some e,
        (sendFiles env b "createNewStickerSet" (createStickerSetFiles s)
          (createStickerSetParams d to_ s)).trace⟩) ∧
    (∀ to_ s,
      (sendFiles env b "addStickerToSet" (addStickerFiles s)
        (addStickerParams d to_ s)).err = some e →
      AddSticker env d b to_ s = ⟨some e,
        (sendFiles env b "addStickerToSet" (addStickerFiles s)
          (addStickerParams d to_ s)).trace⟩) ∧
    (∀ sticker position,
      (Raw env b "setStickerPositionInSet"
        (.params [("sticker", sticker), ("position", Itoa position)])).err = some e →
      SetStickerPosition env b sticker position = ⟨some e,
        (Raw env b "setStickerPositionInSet"
          (.params [("sticker", sticker), ("position", Itoa position)])).trace⟩) ∧
    (∀ sticker,
      (Raw env b "deleteStickerFromSet" (.params [("sticker", sticker)])).err = some e →
      DeleteSticker env b sticker = ⟨some e,
        (Raw env b "deleteStickerFromSet" (.params [("sticker", sticker)])).trace⟩) ∧
    (∀ to_ s,
      (sendFiles env b "setStickerSetThumb" (setStickerSetThumbFiles s)
        [("name", s.Name), ("user_id", to_.recipient)]).err = some e →
      SetStickerSetThumb env b to_ s = ⟨some e,
        (sendFiles env b "setStickerSetThumb" (setStickerSetThumbFiles s)
          [("name", s.Name), ("user_id", to_.recipient)]).trace⟩) := by
  refine ⟨?_, ?_, ?_, ?_, ?_, ?_, ?_, ?_, ?_, ?_, ?_⟩
  · intro to_ text opt h
    exact messageReply_err d _ e h
  · intro media params files h
    exact messageReply_err d _ e h
  · intro h
    exact jsonReply_err env _ _ e h
  · intro offset limit timeout allowed h
    exact jsonReply_err env _ _ e h
  · intro to_ png h
    exact jsonReply_err env _ _ e h
  · intro name h
    exact jsonReply_err env _ _ e h
  · intro to_ s h
    simp only [CreateStickerSet, errOnly, h]
  · intro to_ s h
    simp only [AddSticker, errOnly, h]
  · intro sticker position h
    simp only [SetStickerPosition, errOnly, h]
  · intro sticker h
    simp only [DeleteSticker, errOnly, h]
  · intro to_ s h
    simp only [SetStickerSetThumb, errOnly, h]

/-- Instance of C10: every `Post` fails, and every endpoint returns the wrapped failure. -/
theorem endpoints_propagate_witness :
    (sendText downEnv demoDecoders demoBot ⟨"42"⟩ "hi" none).err =
      some (.errorf "telebot: failure") ∧
    (sendText downEnv demoDecoders demoBot ⟨"42"⟩ "hi" none).result = none ∧
    (sendMedia downEnv demoDecoders demoBot demoMedia demoParams []).err =
      some (.errorf "telebot: failure") ∧
    (sendMedia downEnv demoDecoders demoBot demoMedia demoParams []).result = none ∧
    (getMe downEnv demoDecoders demoBot).err = some (.errorf "telebot: failure") ∧
    (getMe downEnv demoDecoders demoBot).result = none ∧
    (getUpdates downEnv demoDecoders demoBot 5 0 30000000000 []).err =
      some (.errorf "telebot: failure") ∧
    (getUpdates downEnv demoDecoders demoBot 5 0 30000000000 []).result = none ∧
    (UploadSticker downEnv demoDecoders demoBot ⟨"42"⟩ demoMedia.MediaFile).err =
      some (.errorf "telebot: failure") ∧
    (UploadSticker downEnv demoDecoders demoBot ⟨"42"⟩ demoMedia.MediaFile).result = none ∧
    (getStickerSet downEnv demoDecoders demoBot "cats").err =
      some (.errorf "telebot: failure") ∧
    (getStickerSet downEnv demoDecoders demoBot "cats").result = none ∧
    (CreateStickerSet downEnv demoDecoders demoBot ⟨"42"⟩ demoStickers).err =
      some (.errorf "telebot: failure") ∧
    (AddSticker downEnv demoDecoders demoBot ⟨"42"⟩ demoStickers).err =
      some (.errorf "telebot: failure") ∧
    (SetStickerPosition downEnv demoBot "AgAD" 2).err = some (.errorf "telebot: failure") ∧
    (DeleteSticker downEnv demoBot "AgAD").err = some (.errorf "telebot: failure") ∧
    (SetStickerSetThumb downEnv demoBot ⟨"42"⟩ demoStickers).err =
      some (.errorf "telebot: failure") := by
  have h := endpoints_propagate downEnv demoDecoders demoBot (.errorf "telebot: failure")
  obtain ⟨h1, h2, h3, h4, h5, h6, h7, h8, h9, h10, h11⟩ := h
  refine ⟨?_, ?_, ?_, ?_, ?_, ?_, ?_, ?_, ?_, ?_, ?_, ?_, ?_, ?_, ?_, ?_, ?_⟩
  · rw [h1 ⟨"42"⟩ "hi" none rfl]
  · rw [h1 ⟨"42"⟩ "hi" none rfl]
  · rw [h2 demoMedia demoParams [] rfl]
  · rw [h2 demoMedia demoParams [] rfl]
  · rw [h3 rfl]
  · rw [h3 rfl]
  · rw [h4 5 0 30000000000 [] rfl]
  · rw [h4 5 0 30000000000 [] rfl]
  · rw [h5 ⟨"42"⟩ demoMedia.MediaFile rfl]
  · rw [h5 ⟨"42"⟩ demoMedia.MediaFile rfl]
  · rw [h6 "cats" rfl]
  · rw [h6 "cats" rfl]
  · rw [h7 ⟨"42"⟩ demoStickers rfl]
  · rw [h8 ⟨"42"⟩ demoStickers rfl]
  · rw [h9 "AgAD" 2 rfl]
  · rw [h10 "AgAD" rfl]
  · rw [h11 ⟨"42"⟩ demoStickers rfl]

end Telebot
